import Mathlib

/-!
Verification of the ARCA/AFIP electronic-invoicing client
(service_client/ARCA_client.py) via a shallow embedding.

Conventions of the embedding:
  - timestamps are integers counting seconds (the code compares timezone-aware
    datetimes; only ordering and subtraction of fixed offsets matter);
  - Python exceptions become Except String / Option results;
  - remote SOAP calls become oracle functions passed as parameters, returning
    Except String of the parsed response data;
  - XML element trees become an inductive tree with a tag, a text payload and
    a list of children; namespace handling copies the source
    (split the tag on the brace and keep the last fragment).
-/

namespace ARCA

/-- Python lexicographic comparison of strings by code point, on char lists. -/
def pyListLt : List Char → List Char → Bool
  | [], [] => false
  | [], _ :: _ => true
  | _ :: _, [] => false
  | a :: as, b :: bs => if a < b then true else if b < a then false else pyListLt as bs

/-- Python comparison s1 < s2 on strings. -/
def pyStrLt (a b : String) : Bool := pyListLt a.data b.data

/-- Value of a list of decimal digit characters, as Python int() reads it. -/
def digitsToNat (l : List Char) : Nat := l.foldl (fun a c => a * 10 + (c.toNat - 48)) 0

/-- Python int(s) restricted to plain digit strings: some value when s is a
nonempty string of ASCII digits, none otherwise (the only shapes the client
receives from the remote date/number fields). -/
def pyIntOfDigits (s : String) : Option Nat :=
  if s ≠ "" && s.data.all Char.isDigit then some (digitsToNat s.data) else none

/-- Auxiliary scan: does the pattern occur as a contiguous run in the list. -/
def containsAux (p : List Char) : List Char → Bool
  | [] => p.isEmpty
  | c :: t => p.isPrefixOf (c :: t) || containsAux p t

/-- Python substring test: pat in s. -/
def strContainsB (s pat : String) : Bool := containsAux pat.data s.data

/-- The proposition that small occurs contiguously inside big. -/
def SubstrOf (small big : String) : Prop :=
  ∃ pre post, big.data = pre ++ small.data ++ post

/-- Python str.split on a one-character separator: the pieces between the
occurrences, keeping empty pieces. -/
def pySplitChar (c : Char) : List Char → List (List Char)
  | [] => [[]]
  | x :: xs =>
    match pySplitChar c xs with
    | [] => [[]]
    | h :: t => if x = c then [] :: h :: t else (x :: h) :: t

/-- Python str.strip with no argument: drop whitespace from both ends. -/
def pyStrip (s : String) : String :=
  String.mk (((s.data.dropWhile Char.isWhitespace).reverse.dropWhile Char.isWhitespace).reverse)

/-- Zero-pad a number to a fixed width, as the zero-padded Python number format of that width does for
numbers that fit the width. -/
def padNum (width n : Nat) : String :=
  let s := toString n
  String.mk (List.replicate (width - s.length) '0') ++ s

-- ────────────────────────────────────────────────────────────────────────────
-- XML model and envelope codec (_xml_find / _xml_raise_fault)
-- ────────────────────────────────────────────────────────────────────────────

/-- An XML element: tag (possibly namespace-qualified), text, children. -/
inductive Xml where
  | node (tag : String) (text : String) (children : List Xml)

def Xml.tag : Xml → String
  | .node t _ _ => t

def Xml.text : Xml → String
  | .node _ s _ => s

def Xml.children : Xml → List Xml
  | .node _ _ c => c

/-- Local name of a tag: the source splits on the closing brace and keeps the
last fragment when a brace is present, else the tag itself. -/
def localTag (tag : String) : String :=
  String.mk ((pySplitChar (Char.ofNat 125) tag.data).getLastD tag.data)

mutual
/-- Document order (preorder) over an element and its descendants, the order
the Python ElementTree iter method visits. -/
def iterElems : Xml → List Xml
  | .node t s cs => Xml.node t s cs :: iterElemsList cs

def iterElemsList : List Xml → List Xml
  | [] => []
  | x :: xs => iterElems x ++ iterElemsList xs
end

/-- Model of _xml_find: first element in document order whose local tag matches;
its stripped text, with empty text collapsed to absent. -/
def xmlFind (root : Xml) (tag : String) : Option String :=
  match (iterElems root).find? (fun el => localTag el.tag == tag) with
  | some el =>
    let t := pyStrip el.text
    if t == "" then none else some t
  | none => none

/-- Python f-string rendering of an optional string (None prints as "None"). -/
def optStr : Option String → String
  | none => "None"
  | some s => s

/-- Model of _xml_raise_fault: the error message it raises, or none when no fault is
present (fault string anywhere, else nonzero ErrCode). -/
def xmlRaiseFault (root : Xml) : Option String :=
  match xmlFind root "faultstring" with
  | some f => some ("SOAP Fault: " ++ f)
  | none =>
    match xmlFind root "ErrCode" with
    | some c =>
      if c ≠ "0" then some ("AFIP Error " ++ c ++ ": " ++ optStr (xmlFind root "ErrMsg")) else none
    | none => none

-- ────────────────────────────────────────────────────────────────────────────
-- Date helpers: fmt_date_afip and the facade date parsing and window filter
-- ────────────────────────────────────────────────────────────────────────────

/-- Model of _fmt_date_afip: AFIP YYYYMMDD to DD/MM/YYYY; falsy input yields the empty
string and a string of the wrong length is returned unchanged. -/
def fmtDateAfip (yyyymmdd : Option String) : String :=
  match yyyymmdd with
  | none => ""
  | some s =>
    if s = "" then ""
    else if s.length ≠ 8 then s
    else
      let l := s.data
      String.mk (l.drop 6) ++ "/" ++ String.mk ((l.drop 4).take 2) ++ "/" ++ String.mk (l.take 4)

/-- A calendar date as (year, month, day). -/
def DateT := Nat × Nat × Nat
deriving DecidableEq

/-- Lexicographic order on dates, matching ordering of Python date objects. -/
def dateLe (a b : DateT) : Bool :=
  a.1 < b.1 || (a.1 = b.1 && (a.2.1 < b.2.1 || (a.2.1 = b.2.1 && a.2.2 ≤ b.2.2)))

def isLeap (y : Nat) : Bool := (y % 4 == 0 && y % 100 != 0) || y % 400 == 0

def daysInMonth (y m : Nat) : Nat :=
  if m = 2 then (if isLeap y then 29 else 28)
  else if m = 4 ∨ m = 6 ∨ m = 9 ∨ m = 11 then 30
  else 31

/-- Validity bounds the Python datetime constructor enforces. -/
def validDate (y m d : Nat) : Bool :=
  1 ≤ y && y ≤ 9999 && 1 ≤ m && m ≤ 12 && 1 ≤ d && d ≤ daysInMonth y m

/-- The per-record date parse of the facade: split the display date on the slash
expecting day, month, year, convert each with int() and build a date; any
failure (wrong arity, non-numeric part, out-of-range component) is absent. -/
def parseInvDate (s : String) : Option DateT :=
  match pySplitChar '/' s.data with
  | [d, m, y] =>
    match pyIntOfDigits (String.mk d), pyIntOfDigits (String.mk m),
        pyIntOfDigits (String.mk y) with
    | some dn, some mn, some yn => if validDate yn mn dn then some (yn, mn, dn) else none
    | _, _, _ => none
  | _ => none

-- ────────────────────────────────────────────────────────────────────────────
-- Credential data, validity check, disk cache (_is_valid, _load_token_from_disk)
-- ────────────────────────────────────────────────────────────────────────────

/-- The token/sign/expiration triple. The expiration carries the parsed
instant in seconds; none models an expiration string that
datetime.fromisoformat rejects (the exception path of the source). -/
structure TokenData where
  token : String
  sign : String
  expiration : Option Int
deriving DecidableEq, Repr

/-- Model of ARCAClient._is_valid: usable while now is strictly before expiration minus
the five-minute margin; any parse failure makes the credential invalid. -/
def isValidToken (now : Int) (d : TokenData) : Bool :=
  match d.expiration with
  | none => false
  | some exp => decide (now < exp - 5 * 60)

/-- The durable cache file for one (taxpayer id, environment) key: missing,
unreadable or unparseable, or holding a stored credential. A stored credential
whose expiration cannot be parsed follows the exception path of the source. -/
inductive DiskFile where
  | missing
  | corrupt
  | stored (d : TokenData)
deriving DecidableEq, Repr

/-- Model of _load_token_from_disk: the returned credential (or absent) paired with
whether the call unlinked the file. -/
def loadTokenFromDisk (file : DiskFile) (now : Int) : Option TokenData × Bool :=
  match file with
  | .missing => (none, false)
  | .corrupt => (none, true)
  | .stored d =>
    match d.expiration with
    | none => (none, true)
    | some exp => if now < exp - 5 * 60 then (some d, false) else (none, true)

/-- The message ARCAClient._get_token raises on the stale-credential paradox. -/
def paradoxMsg : String :=
  "AFIP reports an active token that is not available in local cache (the process likely restarted before the previous token expired). This resolves automatically when the token expires (~12h after last authentication). If you need to operate now, wait a few minutes and retry."

instance {ε α : Type} [DecidableEq ε] [DecidableEq α] : DecidableEq (Except ε α) :=
  fun x y =>
    match x, y with
    | .ok a, .ok b => if h : a = b then isTrue (by rw [h]) else isFalse (by simp [h])
    | .error a, .error b => if h : a = b then isTrue (by rw [h]) else isFalse (by simp [h])
    | .ok _, .error _ => isFalse (by simp)
    | .error _, .ok _ => isFalse (by simp)

/-- Result of one _get_token call: the returned credential or the raised
message, the in-memory cache afterwards, and whether the durable entry was
deleted or saved. -/
structure GetTokenOut where
  result : Except String TokenData
  memAfter : Option TokenData
  diskDeleted : Bool
  diskSaved : Bool
deriving DecidableEq, Repr

/-- The WSAA branch of _get_token: the authentication attempt with the special
handling of the stale-credential paradox (substring match on the remote
message), any other failure re-raised unchanged. -/
def getTokenAuth (mem : Option TokenData) (wsaa : Except String TokenData)
    (delByLoad : Bool) : GetTokenOut :=
  match wsaa with
  | .error e =>
    if strContainsB e "TA valido" then ⟨.error paradoxMsg, none, true, false⟩
    else ⟨.error e, mem, delByLoad, false⟩
  | .ok tok => ⟨.ok tok, some tok, delByLoad, true⟩

/-- _get_token after the in-memory check missed: consult the durable cache,
then authenticate. -/
def getTokenAfterMem (mem : Option TokenData) (file : DiskFile)
    (wsaa : Except String TokenData) (now : Int) : GetTokenOut :=
  let (disk, delByLoad) := loadTokenFromDisk file now
  match disk with
  | some d =>
    if isValidToken now d then ⟨.ok d, some d, delByLoad, false⟩
    else getTokenAuth mem wsaa delByLoad
  | none => getTokenAuth mem wsaa delByLoad

/-- Model of ARCAClient._get_token over its three credential sources: the in-memory
cache, the durable cache, and a fresh WSAA authentication (given as the
outcome the remote call would have). -/
def getToken (mem : Option TokenData) (file : DiskFile)
    (wsaa : Except String TokenData) (now : Int) : GetTokenOut :=
  match mem with
  | some m =>
    if isValidToken now m then ⟨.ok m, some m, false, false⟩
    else getTokenAfterMem mem file wsaa now
  | none => getTokenAfterMem mem file wsaa now

-- ────────────────────────────────────────────────────────────────────────────
-- WSFE invoicing flow
-- ────────────────────────────────────────────────────────────────────────────

/-- Model of _clean_cuit: remove every dash, then strip surrounding whitespace. -/
def cleanCuit (cuit : String) : String := pyStrip (String.mk (cuit.data.filter (· ≠ '-')))

/-- wsfe_get_last_invoice_number applied to the outcome of its SOAP call
(.error = transport failure, .ok = parsed response body): raises on an
embedded fault, otherwise reads CbteNro, any missing or non-digit value
collapsing to zero. -/
def wsfe_get_last_invoice_number (resp : Except String Xml) : Except String Int :=
  match resp with
  | .error e => .error e
  | .ok root =>
    match xmlRaiseFault root with
    | some f => .error f
    | none =>
      match xmlFind root "CbteNro" with
      | none => .ok 0
      | some s =>
        if !s.isEmpty && s.data.all Char.isDigit then .ok (Int.ofNat (digitsToNat s.data))
        else .ok 0

/-- A historical invoice record as wsfe_query_invoice builds it. The amount is
carried as the raw ImpTotal text (the source converts it to a float, which the
embedding does not model; no claim inspects the numeric value). -/
structure InvRec where
  comp_nro : String
  punto_venta : Nat
  invoice_number : Nat
  fecha_emision : String
  cuit_cliente : String
  amountRaw : Option String
  cae_number : String
  vencimiento : String
  resultado : String
deriving DecidableEq, Repr

/-- The record-building part of wsfe_query_invoice on a parsed response. -/
def buildInvRec (pv n : Nat) (root : Xml) : InvRec :=
  let doc_nro := (xmlFind root "DocNro").getD ""
  let cuit_fmt :=
    if doc_nro ≠ "" && doc_nro.length = 11 then
      let l := doc_nro.data
      String.mk (l.take 2) ++ "-" ++ String.mk ((l.drop 2).take 8) ++ "-" ++ String.mk (l.drop 10)
    else doc_nro
  { comp_nro := "C" ++ padNum 5 pv ++ "-" ++ padNum 8 n
    punto_venta := pv
    invoice_number := n
    fecha_emision := fmtDateAfip (xmlFind root "CbteFch")
    cuit_cliente := cuit_fmt
    amountRaw := xmlFind root "ImpTotal"
    cae_number := (xmlFind root "CAE").getD ""
    vencimiento := fmtDateAfip (xmlFind root "CAEFchVto")
    resultado := (xmlFind root "Resultado").getD "" }

/-- wsfe_query_invoice over the outcome of its SOAP call. -/
def wsfe_query_invoice (resp : Except String Xml) (pv n : Nat) : Except String InvRec :=
  match resp with
  | .error e => .error e
  | .ok root =>
    match xmlRaiseFault root with
    | some f => .error f
    | none => .ok (buildInvRec pv n root)

/-- wsfe_query_invoices_range: enumerate the closed range, keep the successful
lookups in order, drop every failing number. -/
def wsfe_query_invoices_range (resp : Nat → Except String Xml) (pv fromN toN : Nat) :
    List InvRec :=
  (List.range' fromN (toN + 1 - fromN)).filterMap
    fun n => (wsfe_query_invoice (resp n) pv n).toOption

-- ────────────────────────────────────────────────────────────────────────────
-- wsfe_request_cae
-- ────────────────────────────────────────────────────────────────────────────

/-- The single-record authorization request wsfe_request_cae submits. -/
structure CaeRequest where
  punto_venta : Nat
  cbte_desde : Nat
  cbte_hasta : Nat
  cbte_fch : String
  doc_nro : String
  amount_str : String
deriving DecidableEq, Repr

/-- The FECAESolicitar result record of the source. -/
structure CaeResult where
  cae : String
  cae_vto : Option String
  invoice_number : Nat
  resultado : Option String
  obs : List String
  raw_xml : String
deriving DecidableEq, Repr

/-- The pre-rejection Obs collection of wsfe_request_cae. -/
def caeObsList (root : Xml) : List String :=
  (iterElems root).filterMap fun el =>
    if localTag el.tag == "Obs" then
      match xmlFind el "Msg" with
      | some m => some ("[" ++ optStr (xmlFind el "Code") ++ "] " ++ m)
      | none => none
    else none

/-- The Err lines collected in the rejection branch of wsfe_request_cae. -/
def caeErrMsgs (root : Xml) : List String :=
  (iterElems root).filterMap fun el =>
    if localTag el.tag == "Err" then
      match xmlFind el "Msg" with
      | some m => some ("  ❌ [" ++ optStr (xmlFind el "Code") ++ "] " ++ m)
      | none => none
    else none

/-- The Obs lines collected in the rejection branch of wsfe_request_cae. -/
def caeObsMsgs (root : Xml) : List String :=
  (iterElems root).filterMap fun el =>
    if localTag el.tag == "Obs" then
      match xmlFind el "Msg" with
      | some m => some ("  ⚠️  [" ++ optStr (xmlFind el "Code") ++ "] " ++ m)
      | none => none
    else none

/-- The message lines of the rejection failure. -/
def caeErrLines (root : Xml) (raw : String) : List String :=
  let errs := caeErrMsgs root
  let obss := caeObsMsgs root
  ["WSFE: CAE rejected."]
    ++ (if errs.isEmpty then [] else "Errors:" :: errs)
    ++ (if obss.isEmpty then [] else "Observations:" :: obss)
    ++ (if errs.isEmpty && obss.isEmpty then [raw] else [])

/-- Python sep.join. -/
def pyJoin (sep : String) : List String → String
  | [] => ""
  | [a] => a
  | a :: b :: t => a ++ sep ++ pyJoin sep (b :: t)

/-- The single-record FECAESolicitar body wsfe_request_cae assembles: the
detail record carries the sequence number in both CbteDesde and CbteHasta,
the compact date in the three service-date fields, and the cleaned recipient
tax id. -/
def buildCaeRequest (punto_venta invoice_number : Nat) (invoice_date : String)
    (amount_str : String) (client_cuit : String) : CaeRequest :=
  { punto_venta, cbte_desde := invoice_number, cbte_hasta := invoice_number
    cbte_fch := invoice_date, doc_nro := cleanCuit client_cuit, amount_str }

/-- The response-handling half of wsfe_request_cae: raise on faults, on a
Rejected outcome with all collected pairs, or when no CAE comes back;
otherwise assemble the result record. -/
def handleCaeResponse (invoice_number : Nat) (resp : Except String (Xml × String)) :
    Except String CaeResult :=
  match resp with
  | .error e => .error e
  | .ok (root, raw) =>
    match xmlRaiseFault root with
    | some f => .error f
    | none =>
      let resultado := xmlFind root "Resultado"
      if resultado == some "R" then .error (pyJoin "\n" (caeErrLines root raw))
      else
        match xmlFind root "CAE" with
        | none => .error ("WSFE: CAE not returned.\nResponse:\n" ++ String.mk (raw.data.take 800))
        | some c =>
          let cae_vto := xmlFind root "CAEFchVto"
          let vto_fmt :=
            match cae_vto with
            | some v => if v.length = 8 then some (fmtDateAfip (some v)) else some v
            | none => none
          .ok { cae := c, cae_vto := vto_fmt, invoice_number := invoice_number
                resultado := resultado, obs := caeObsList root, raw_xml := raw }

/-- wsfe_request_cae: builds the request, submits it through the given oracle
(.ok carries the parsed tree and the raw body text), and handles the
response. -/
def wsfe_request_cae (punto_venta invoice_number : Nat) (invoice_date : String)
    (amount_str : String) (client_cuit : String)
    (resp : CaeRequest → Except String (Xml × String)) : Except String CaeResult :=
  handleCaeResponse invoice_number
    (resp (buildCaeRequest punto_venta invoice_number invoice_date amount_str client_cuit))

-- ────────────────────────────────────────────────────────────────────────────
-- Facade: get_invoices and issue_invoice
-- ────────────────────────────────────────────────────────────────────────────

/-- The default for the sales_points argument: the Python or-idiom replaces both
an absent and an empty list by [1, 2]. -/
def resolvePvs (sp : Option (List Nat)) : List Nat :=
  match sp with
  | none => [1, 2]
  | some [] => [1, 2]
  | some l => l

/-- The sort key comparison of get_invoices: a may precede b in the final list
when its (display date string, invoice number) key is greater or equal —
list.sort(key=..., reverse=True) over tuples of a string and an int. -/
def invKeyGe (a b : InvRec) : Bool :=
  pyStrLt b.fecha_emision a.fecha_emision ||
    (a.fecha_emision == b.fecha_emision && decide (b.invoice_number ≤ a.invoice_number))

/-- Stable descending insertion for the get_invoices sort. -/
def insertDesc (x : InvRec) : List InvRec → List InvRec
  | [] => [x]
  | h :: t => if invKeyGe x h then x :: h :: t else h :: insertDesc x t

/-- The get_invoices sort: stable, by (display date string, invoice number)
descending, as the Python reverse=True sort of those tuple keys. -/
def sortInvoicesDesc : List InvRec → List InvRec
  | [] => []
  | x :: xs => insertDesc x (sortInvoicesDesc xs)

/-- One sales point of the get_invoices loop: last number (zero means skip),
then the range scan, then the client-side date filter with its fail-open
branch on an unparseable date. Any failure inside the block is caught by the
per-sales-point handler and yields nothing for that sales point. -/
def perPv (lastResp : Nat → Except String Xml) (qResp : Nat → Nat → Except String Xml)
    (dF dT : DateT) (pv : Nat) : List InvRec :=
  match wsfe_get_last_invoice_number (lastResp pv) with
  | .error _ => []
  | .ok last =>
    if last = 0 then []
    else
      (wsfe_query_invoices_range (qResp pv) pv 1 last.toNat).filter fun inv =>
        match parseInvDate inv.fecha_emision with
        | some d => dateLe dF d && dateLe d dT
        | none => true

/-- Model of ARCAClient.get_invoices: token acquisition (whose failure propagates),
then the per-sales-point enumeration, then the descending sort. The two SOAP
oracles give the parsed last-number response per sales point and the parsed
query response per (sales point, number). -/
def get_invoices (tok : Except String TokenData)
    (lastResp : Nat → Except String Xml) (qResp : Nat → Nat → Except String Xml)
    (dF dT : DateT) (sp : Option (List Nat)) : Except String (List InvRec) :=
  match tok with
  | .error e => .error e
  | .ok _ => .ok (sortInvoicesDesc (((resolvePvs sp).map (perPv lastResp qResp dF dT)).flatten))

/-- The regex match of issue_invoice, a letter C of either case then one or
more digits then a dash, anchored at the start. Greediness is immaterial: a
shorter digit run is followed by a digit, never by the dash. -/
def matchesPvPattern (s : String) : Bool :=
  match s.data with
  | [] => false
  | c :: rest =>
    (c == 'C' || c == 'c') &&
      (let ds := rest.takeWhile Char.isDigit
       !ds.isEmpty &&
         (match rest.drop ds.length with
          | '-' :: _ => true
          | _ => false))

/-- The sales point issue_invoice derives from the composite identifier: the
captured digit group when the pattern matches, else 2. -/
def extract_pv (s : String) : Nat :=
  match s.data with
  | [] => 2
  | c :: rest =>
    if c == 'C' || c == 'c' then
      let ds := rest.takeWhile Char.isDigit
      if !ds.isEmpty &&
          (match rest.drop ds.length with
           | '-' :: _ => true
           | _ => false)
      then digitsToNat ds
      else 2
    else 2

/-- The date conversion of issue_invoice: with a slash present the display
date is split expecting day, month, year (any other arity raises an uncaught
ValueError); without a slash the current date stands in. -/
def invoice_date_of (fecha today : String) : Except String String :=
  if fecha.data.any (· = '/') then
    match pySplitChar '/' fecha.data with
    | [d, mo, y] => .ok (String.mk y ++ String.mk mo ++ String.mk d)
    | _ => .error "ValueError: not enough values to unpack"
  else .ok today

/-- An xlsx row as issue_invoice reads it (each field via row.get with its
default). The amount is carried as already-formatted text. -/
structure Row where
  comp_nro : String
  fecha_emision : String
  amount_str : String
  cuit_cliente : String
deriving Repr

/-- Model of ARCAClient.issue_invoice: derive the sales point and the date, fetch the
last authorized number (through the token), add one, and request the CAE. -/
def issue_invoice (tok : Except String TokenData) (lastResp : Nat → Except String Xml)
    (caeResp : CaeRequest → Except String (Xml × String)) (row : Row) (today : String) :
    Except String CaeResult :=
  let pv := extract_pv row.comp_nro
  match invoice_date_of row.fecha_emision today with
  | .error e => .error e
  | .ok d =>
    match tok with
    | .error e => .error e
    | .ok _ =>
      match wsfe_get_last_invoice_number (lastResp pv) with
      | .error e => .error e
      | .ok last =>
        match tok with
        | .error e => .error e
        | .ok _ =>
          wsfe_request_cae pv (last.toNat + 1) d row.amount_str row.cuit_cliente caeResp

-- ────────────────────────────────────────────────────────────────────────────
-- Concrete sample data used to exercise the model
-- ────────────────────────────────────────────────────────────────────────────

/-- A sample credential. -/
def tok0 : TokenData := { token := "tk", sign := "sg", expiration := some 100000 }

/-- A last-number response tree reporting CbteNro 7. -/
def lastTree7 : Xml := .node "FECompUltimoAutorizadoResponse" "" [.node "CbteNro" "7" []]

/-- A last-number response tree with no CbteNro element at all. -/
def lastTreeEmpty : Xml := .node "FECompUltimoAutorizadoResponse" "" []

/-- A last-number oracle that always reports 7. -/
def lastResp7 : Nat → Except String Xml := fun _ => .ok lastTree7

/-- A last-number oracle whose transport always fails. -/
def lastRespErr : Nat → Except String Xml :=
  fun _ => .error "ConnectionError: HTTP 503 from wswhomo.afip.gov.ar"

/-- A last-number response tree reporting CbteNro 2 (for the history run). -/
def lastTree2 : Xml := .node "FECompUltimoAutorizadoResponse" "" [.node "CbteNro" "2" []]

def lastResp2 : Nat → Except String Xml := fun _ => .ok lastTree2

/-- Query response for invoice 1: issued on AFIP date 20260131. -/
def qTreeJan : Xml := .node "FECompConsultarResponse" "" [.node "CbteFch" "20260131" []]

/-- Query response for invoice 2: issued on AFIP date 20260215. -/
def qTreeFeb : Xml := .node "FECompConsultarResponse" "" [.node "CbteFch" "20260215" []]

/-- Query oracle for the history run: number 1 is the January invoice,
every other number the February one. -/
def qRespHist : Nat → Nat → Except String Xml :=
  fun _ n => .ok (if n = 1 then qTreeJan else qTreeFeb)

/-- Query oracle for the gap run over numbers 1..5: lookups of 2 and 4 fail,
the others succeed. -/
def qRespGaps : Nat → Except String Xml :=
  fun n => if n = 2 || n = 4 then .error "AFIP Error 602: No existe comprobante" else .ok qTreeJan

/-- A CAE oracle whose transport always fails. -/
def caeRespErr : CaeRequest → Except String (Xml × String) :=
  fun _ => .error "ConnectionError: HTTP 502 from wswhomo.afip.gov.ar"

/-- The two error pairs of the sample rejection. -/
def errElA : Xml := .node "Err" "" [.node "Code" "10015" [], .node "Msg" "Campo DocNro invalido" []]

def errElB : Xml := .node "Err" "" [.node "Code" "10016" [], .node "Msg" "CbteDesde distinto al proximo" []]

/-- The observation pair of the sample rejection. -/
def obsElC : Xml := .node "Obs" "" [.node "Code" "01" [], .node "Msg" "Revisar condicion IVA" []]

/-- A Rejected FECAESolicitar response carrying two error pairs and one
observation pair. -/
def rejTree : Xml :=
  .node "FECAESolicitarResponse" ""
    [.node "Resultado" "R" [], .node "Errors" "" [errElA, errElB],
     .node "Observaciones" "" [obsElC]]

/-- A CAE oracle answering with the sample rejection. -/
def caeRespRej : CaeRequest → Except String (Xml × String) :=
  fun _ => .ok (rejTree, "<rawbody/>")

/-- A sample xlsx row. -/
def row0 : Row :=
  { comp_nro := "C00002-00000001", fecha_emision := "15/02/2026"
    amount_str := "1000.00", cuit_cliente := "20-29865449-1" }

/-- A row whose composite identifier starts with a lowercase c. -/
def rowLower : Row :=
  { comp_nro := "c3-00000001", fecha_emision := "20260215"
    amount_str := "1000.00", cuit_cliente := "20-29865449-1" }

/-- A row whose display date has a slash but not three components, so its
conversion raises an uncaught ValueError. -/
def rowBadDate : Row :=
  { comp_nro := "C00002-00000002", fecha_emision := "15/02"
    amount_str := "1000.00", cuit_cliente := "20-29865449-1" }

/-- Modelled from the wording of the claim, for comparison with the source pattern:
a literal uppercase C, then one or more digits, then a dash, at the start. -/
def specPatternC (s : String) : Bool :=
  match s.data with
  | [] => false
  | c :: rest =>
    c == 'C' &&
      (let ds := rest.takeWhile Char.isDigit
       !ds.isEmpty &&
         (match rest.drop ds.length with
          | '-' :: _ => true
          | _ => false))

-- ────────────────────────────────────────────────────────────────────────────
-- Helper lemmas
-- ────────────────────────────────────────────────────────────────────────────

theorem data_append (s t : String) : (s ++ t).data = s.data ++ t.data := rfl

/-- Any member of a line list occurs contiguously in its Python join. -/
theorem substrOf_of_mem_pyJoin (sep l : String) :
    ∀ ls : List String, l ∈ ls → SubstrOf l (pyJoin sep ls) := by
  intro ls
  induction ls with
  | nil => intro h; cases h
  | cons a t ih =>
    intro h
    cases t with
    | nil =>
      have hl : l = a := by simpa using h
      subst hl
      exact ⟨[], [], by simp [pyJoin]⟩
    | cons b t2 =>
      rcases List.mem_cons.mp h with h | h
      · subst h
        exact ⟨[], sep.data ++ (pyJoin sep (b :: t2)).data, by
          simp [pyJoin, data_append]⟩
      · obtain ⟨pre, post, hpp⟩ := ih h
        refine ⟨a.data ++ sep.data ++ pre, post, ?_⟩
        simp [pyJoin, data_append, hpp]

-- ────────────────────────────────────────────────────────────────────────────
-- Claims
-- ────────────────────────────────────────────────────────────────────────────

/-- C3: the validity check accepts a cached credential exactly when the
current time is strictly before its expiration minus the five-minute safety
margin; a credential with four minutes left is invalid and one with six
minutes left is valid. -/
theorem C3_validity_margin (now exp : Int) (tk sg : String) :
    (isValidToken now { token := tk, sign := sg, expiration := some exp } = true ↔
      now < exp - 5 * 60) ∧
    isValidToken now { token := tk, sign := sg, expiration := some (now + 4 * 60) } = false ∧
    isValidToken now { token := tk, sign := sg, expiration := some (now + 6 * 60) } = true := by
  refine ⟨?_, ?_, ?_⟩
  · simp [isValidToken]
  · simp only [isValidToken, decide_eq_false_iff_not]
    omega
  · simp only [isValidToken, decide_eq_true_eq]
    omega

/-- C7: the durable-cache load returns absent exactly on a missing file,
corrupt content (including an unreadable expiration) or an expiration inside
the safety margin; it deletes the file exactly in the non-missing absent
cases; and it returns the stored credential otherwise. -/
theorem C7_load_token_cases (file : DiskFile) (now : Int) :
    ((loadTokenFromDisk file now).1 = none ↔
      file = .missing ∨ file = .corrupt ∨
        ∃ d, file = .stored d ∧ ¬ ∃ e, d.expiration = some e ∧ now < e - 5 * 60) ∧
    ((loadTokenFromDisk file now).2 = true ↔
      file = .corrupt ∨
        ∃ d, file = .stored d ∧ ¬ ∃ e, d.expiration = some e ∧ now < e - 5 * 60) ∧
    (∀ d e, file = .stored d → d.expiration = some e → now < e - 5 * 60 →
      loadTokenFromDisk file now = (some d, false)) := by
  refine ⟨?_, ?_, ?_⟩
  · cases file with
    | missing => simp [loadTokenFromDisk]
    | corrupt => simp [loadTokenFromDisk]
    | stored d =>
      cases hd : d.expiration with
      | none =>
        simp only [loadTokenFromDisk, hd, true_iff]
        refine Or.inr (Or.inr ⟨d, rfl, ?_⟩)
        rintro ⟨e, he, _⟩
        rw [hd] at he
        cases he
      | some e =>
        by_cases hlt : now < e - 5 * 60
        · simp only [loadTokenFromDisk, hd, if_pos hlt]
          constructor
          · intro h; cases h
          · rintro (h | h | ⟨d1, hd1, hne⟩)
            · cases h
            · cases h
            · injection hd1 with h1
              subst h1
              exact absurd ⟨e, hd, hlt⟩ hne
        · simp only [loadTokenFromDisk, hd, if_neg hlt, true_iff]
          refine Or.inr (Or.inr ⟨d, rfl, ?_⟩)
          rintro ⟨e1, he1, hl1⟩
          rw [hd] at he1
          injection he1 with h2
          subst h2
          exact hlt hl1
  · cases file with
    | missing =>
      simp only [loadTokenFromDisk, Bool.false_eq_true, false_iff]
      rintro (h | ⟨d1, hd1, _⟩)
      · cases h
      · cases hd1
    | corrupt => simp [loadTokenFromDisk]
    | stored d =>
      cases hd : d.expiration with
      | none =>
        simp only [loadTokenFromDisk, hd, true_iff]
        refine Or.inr ⟨d, rfl, ?_⟩
        rintro ⟨e, he, _⟩
        rw [hd] at he
        cases he
      | some e =>
        by_cases hlt : now < e - 5 * 60
        · simp only [loadTokenFromDisk, hd, if_pos hlt, Bool.false_eq_true, false_iff]
          rintro (h | ⟨d1, hd1, hne⟩)
          · cases h
          · injection hd1 with h1
            subst h1
            exact absurd ⟨e, hd, hlt⟩ hne
        · simp only [loadTokenFromDisk, hd, if_neg hlt, true_iff]
          refine Or.inr ⟨d, rfl, ?_⟩
          rintro ⟨e1, he1, hl1⟩
          rw [hd] at he1
          injection he1 with h2
          subst h2
          exact hlt hl1
  · intro d e hf he hlt
    subst hf
    simp only [loadTokenFromDisk, he, if_pos hlt]

/-- Witness for C7 at a concrete fresh credential. -/
theorem C7_load_token_cases_witness :
    loadTokenFromDisk (.stored { token := "tk", sign := "sg", expiration := some 1000 }) 0 =
      (some { token := "tk", sign := "sg", expiration := some 1000 }, false) :=
  (C7_load_token_cases (.stored { token := "tk", sign := "sg", expiration := some 1000 }) 0).2.2
    { token := "tk", sign := "sg", expiration := some 1000 } 1000 rfl rfl (by decide)

/-- C8: on a fault-free last-number response the operation always returns a
non-negative integer; a missing or non-digit CbteNro yields 0; and a caller
seeing 0 everywhere completes the history operation without error, with an
empty result. -/
theorem C8_last_number_zero_not_error (root : Xml) (hfault : xmlRaiseFault root = none) :
    (∃ v : Int, wsfe_get_last_invoice_number (.ok root) = .ok v ∧ 0 ≤ v) ∧
    (xmlFind root "CbteNro" = none → wsfe_get_last_invoice_number (.ok root) = .ok 0) ∧
    (∀ s, xmlFind root "CbteNro" = some s → s.data.all Char.isDigit = false →
      wsfe_get_last_invoice_number (.ok root) = .ok 0) ∧
    (∀ (lastResp : Nat → Except String Xml) (qResp : Nat → Nat → Except String Xml)
        (dF dT : DateT) (sp : Option (List Nat)) (t : TokenData),
      (∀ pv : Nat, wsfe_get_last_invoice_number (lastResp pv) = .ok 0) →
      get_invoices (.ok t) lastResp qResp dF dT sp = .ok []) := by
  refine ⟨?_, ?_, ?_, ?_⟩
  · cases hn : xmlFind root "CbteNro" with
    | none => exact ⟨0, by simp [wsfe_get_last_invoice_number, hfault, hn], le_refl 0⟩
    | some s =>
      cases hdig : (!s.isEmpty && s.data.all Char.isDigit) with
      | true =>
        exact ⟨Int.ofNat (digitsToNat s.data),
          by simp [wsfe_get_last_invoice_number, hfault, hn, hdig], Int.ofNat_nonneg _⟩
      | false =>
        exact ⟨0, by simp [wsfe_get_last_invoice_number, hfault, hn, hdig], le_refl 0⟩
  · intro hn
    simp [wsfe_get_last_invoice_number, hfault, hn]
  · intro s hn hdig
    have hb : (!s.isEmpty && s.data.all Char.isDigit) = false := by
      simp [hdig]
    simp [wsfe_get_last_invoice_number, hfault, hn, hb]
  · intro lastResp qResp dF dT sp t hzero
    have hper : ∀ pv, perPv lastResp qResp dF dT pv = [] := by
      intro pv
      simp [perPv, hzero pv]
    simp [get_invoices]
    have : (resolvePvs sp).map (perPv lastResp qResp dF dT) =
        (resolvePvs sp).map fun _ => ([] : List InvRec) :=
      List.map_congr_left fun pv _ => hper pv
    rw [this]
    induction resolvePvs sp with
    | nil => rfl
    | cons p ps ih => simpa using ih

/-- Witness for C8 at a response tree with no CbteNro element. -/
theorem C8_last_number_zero_not_error_witness :
    wsfe_get_last_invoice_number (.ok lastTreeEmpty) = .ok 0 :=
  (C8_last_number_zero_not_error lastTreeEmpty (by decide)).2.1 (by decide)

/-- A successful single lookup carries its own number in the record. -/
theorem wsfe_query_invoice_number (resp : Except String Xml) (pv n : Nat) (r : InvRec)
    (h : wsfe_query_invoice resp pv n = .ok r) : r.invoice_number = n := by
  cases resp with
  | error e => simp [wsfe_query_invoice] at h
  | ok root =>
    cases hf : xmlRaiseFault root with
    | some f => simp [wsfe_query_invoice, hf] at h
    | none =>
      simp [wsfe_query_invoice, hf] at h
      rw [← h]
      rfl

theorem exceptToOption_ok {ε α : Type} (a : α) :
    (Except.ok a : Except ε α).toOption = some a := rfl

theorem exceptToOption_error {ε α : Type} (e : ε) :
    (Except.error e : Except ε α).toOption = none := rfl

/-- C6: the range enumeration returns exactly the records of the numbers
whose lookup succeeded, in ascending number order (the mapped number list is
the ascending range filtered to the successful lookups), and a record is in
the output exactly when its number is in the closed range and its lookup
succeeded with it; the enumeration itself is total, so no individual failure
escapes it. -/
theorem C6_range_skips_gaps (resp : Nat → Except String Xml) (pv a b : Nat) :
    ((wsfe_query_invoices_range resp pv a b).map (fun r => r.invoice_number) =
      (List.range' a (b + 1 - a)).filter
        (fun n => (wsfe_query_invoice (resp n) pv n).toOption.isSome)) ∧
    (∀ r, r ∈ wsfe_query_invoices_range resp pv a b ↔
      ∃ n, a ≤ n ∧ n ≤ b ∧ wsfe_query_invoice (resp n) pv n = .ok r) := by
  constructor
  · have key : ∀ l : List Nat,
        ((l.filterMap fun n => (wsfe_query_invoice (resp n) pv n).toOption).map
            (fun r => r.invoice_number)) =
          l.filter (fun n => (wsfe_query_invoice (resp n) pv n).toOption.isSome) := by
      intro l
      induction l with
      | nil => rfl
      | cons n t ih =>
        cases hq : wsfe_query_invoice (resp n) pv n with
        | error e =>
          simp [List.filterMap_cons, List.filter_cons, hq, exceptToOption_error, ih]
        | ok r =>
          have hnum := wsfe_query_invoice_number (resp n) pv n r hq
          simp [List.filterMap_cons, List.filter_cons, hq, exceptToOption_ok, ih, hnum]
    exact key _
  · intro r
    constructor
    · intro hr
      obtain ⟨n, hn, hsome⟩ := List.mem_filterMap.mp hr
      have hb := List.mem_range'_1.mp hn
      refine ⟨n, hb.1, by omega, ?_⟩
      cases hq : wsfe_query_invoice (resp n) pv n with
      | error e => rw [hq, exceptToOption_error] at hsome; cases hsome
      | ok r2 =>
        rw [hq, exceptToOption_ok] at hsome
        injection hsome with h3
        rw [h3]
    · rintro ⟨n, h1, h2, hq⟩
      exact List.mem_filterMap.mpr
        ⟨n, List.mem_range'_1.mpr ⟨h1, by omega⟩, by rw [hq, exceptToOption_ok]⟩

/-- C4: with a valid credential, a convertible date and a successful
last-number read, issue_invoice hands the CAE layer a request whose
CbteDesde and CbteHasta both equal that last number plus one. -/
theorem C4_issue_uses_last_plus_one
    (tok : Except String TokenData) (lastResp : Nat → Except String Xml)
    (caeResp : CaeRequest → Except String (Xml × String)) (row : Row) (today : String)
    (t : TokenData) (d : String) (n : Nat)
    (htok : tok = .ok t)
    (hdate : invoice_date_of row.fecha_emision today = .ok d)
    (hlast : wsfe_get_last_invoice_number (lastResp (extract_pv row.comp_nro)) =
      .ok (Int.ofNat n)) :
    (buildCaeRequest (extract_pv row.comp_nro) (n + 1) d row.amount_str
        row.cuit_cliente).cbte_desde = n + 1 ∧
    (buildCaeRequest (extract_pv row.comp_nro) (n + 1) d row.amount_str
        row.cuit_cliente).cbte_hasta = n + 1 ∧
    issue_invoice tok lastResp caeResp row today =
      handleCaeResponse (n + 1)
        (caeResp (buildCaeRequest (extract_pv row.comp_nro) (n + 1) d row.amount_str
          row.cuit_cliente)) := by
  subst htok
  refine ⟨rfl, rfl, ?_⟩
  simp [issue_invoice, hdate, hlast, wsfe_request_cae]

/-- Witness for C4 with last number 7: the submitted request carries 8. -/
theorem C4_issue_uses_last_plus_one_witness :
    issue_invoice (.ok tok0) lastResp7 caeRespErr row0 "20261012" =
      handleCaeResponse 8
        (caeRespErr (buildCaeRequest (extract_pv row0.comp_nro) 8 "20260215"
          row0.amount_str row0.cuit_cliente)) :=
  (C4_issue_uses_last_plus_one (.ok tok0) lastResp7 caeRespErr row0 "20261012"
    tok0 "20260215" 7 rfl (by decide) (by decide)).2.2

/-- When both cache layers miss, _get_token reduces to the authentication
branch. -/
theorem getToken_miss (mem : Option TokenData) (file : DiskFile)
    (wsaa : Except String TokenData) (now : Int)
    (hmem : ∀ m, mem = some m → isValidToken now m = false)
    (hdisk : ∀ d, (loadTokenFromDisk file now).1 = some d → isValidToken now d = false) :
    getToken mem file wsaa now = getTokenAuth mem wsaa (loadTokenFromDisk file now).2 := by
  have hafter : getTokenAfterMem mem file wsaa now =
      getTokenAuth mem wsaa (loadTokenFromDisk file now).2 := by
    rcases hl : loadTokenFromDisk file now with ⟨disk, del⟩
    cases disk with
    | none => simp [getTokenAfterMem, hl]
    | some d =>
      have hv := hdisk d (by rw [hl])
      simp [getTokenAfterMem, hl, hv]
  cases mem with
  | none => simp [getToken, hafter]
  | some m => simp [getToken, hmem m rfl, hafter]

set_option maxRecDepth 8000 in
/-- C9: when both cache layers miss and WSAA fails with the remote
already-active indication, _get_token deletes the durable entry, clears the
in-memory credential and raises the distinct descriptive message (which
mentions self-resolution at token expiry and suggests a retry delay, and
differs from the raw failure); any other WSAA failure is re-raised
unchanged. -/
theorem C9_stale_paradox (mem : Option TokenData) (file : DiskFile) (now : Int) (e : String)
    (hmem : ∀ m, mem = some m → isValidToken now m = false)
    (hdisk : ∀ d, (loadTokenFromDisk file now).1 = some d → isValidToken now d = false) :
    (strContainsB e "TA valido" = true →
      getToken mem file (.error e) now =
        { result := .error paradoxMsg, memAfter := none
          diskDeleted := true, diskSaved := false } ∧
      paradoxMsg ≠ e) ∧
    (strContainsB e "TA valido" = false →
      getToken mem file (.error e) now =
        { result := .error e, memAfter := mem
          diskDeleted := (loadTokenFromDisk file now).2, diskSaved := false }) ∧
    strContainsB paradoxMsg "This resolves automatically when the token expires" = true ∧
    strContainsB paradoxMsg "wait a few minutes and retry" = true := by
  have hred := getToken_miss mem file (.error e) now hmem hdisk
  refine ⟨?_, ?_, by decide, by decide⟩
  · intro hc
    constructor
    · rw [hred]
      simp [getTokenAuth, hc]
    · intro heq
      have hpc : strContainsB paradoxMsg "TA valido" = true := heq ▸ hc
      exact absurd hpc (by decide)
  · intro hc
    rw [hred]
    simp [getTokenAuth, hc]

set_option maxRecDepth 8000 in
/-- Witness for C9 at the canonical already-active WSAA failure with both
cache layers empty. -/
theorem C9_stale_paradox_witness :
    getToken none .missing
      (.error "AFIP fault: El CEE ya posee un TA valido para el acceso al WSN solicitado") 0 =
      { result := .error paradoxMsg, memAfter := none
        diskDeleted := true, diskSaved := false } :=
  ((C9_stale_paradox none .missing 0
      "AFIP fault: El CEE ya posee un TA valido para el acceso al WSN solicitado"
      (fun m hm => by cases hm)
      (fun d hd => by simp [loadTokenFromDisk] at hd)).1 (by decide)).1

/-- C5: on a fault-free Rejected authorization response, wsfe_request_cae
fails with the joined rejection lines, and the formatted line of every error
pair and of every observation pair found anywhere in the response tree is
among those lines and occurs inside the failure message. -/
theorem C5_rejection_aggregates (pv n : Nat) (date amount cuit : String)
    (resp : CaeRequest → Except String (Xml × String)) (root : Xml) (raw : String)
    (hresp : resp (buildCaeRequest pv n date amount cuit) = .ok (root, raw))
    (hfault : xmlRaiseFault root = none)
    (hrej : xmlFind root "Resultado" = some "R") :
    wsfe_request_cae pv n date amount cuit resp =
      .error (pyJoin "\n" (caeErrLines root raw)) ∧
    (∀ el ∈ iterElems root, localTag el.tag = "Err" →
      ∀ m, xmlFind el "Msg" = some m →
        ("  ❌ [" ++ optStr (xmlFind el "Code") ++ "] " ++ m) ∈ caeErrLines root raw ∧
        SubstrOf ("  ❌ [" ++ optStr (xmlFind el "Code") ++ "] " ++ m)
          (pyJoin "\n" (caeErrLines root raw))) ∧
    (∀ el ∈ iterElems root, localTag el.tag = "Obs" →
      ∀ m, xmlFind el "Msg" = some m →
        ("  ⚠️  [" ++ optStr (xmlFind el "Code") ++ "] " ++ m) ∈ caeErrLines root raw ∧
        SubstrOf ("  ⚠️  [" ++ optStr (xmlFind el "Code") ++ "] " ++ m)
          (pyJoin "\n" (caeErrLines root raw))) := by
  refine ⟨?_, ?_, ?_⟩
  · simp [wsfe_request_cae, handleCaeResponse, hresp, hfault, hrej]
  · intro el hel htag m hm
    have hmemErr : ("  ❌ [" ++ optStr (xmlFind el "Code") ++ "] " ++ m) ∈ caeErrMsgs root :=
      List.mem_filterMap.mpr ⟨el, hel, by simp [htag, hm]⟩
    have hne : (caeErrMsgs root).isEmpty = false := by
      cases hcm : caeErrMsgs root with
      | nil => rw [hcm] at hmemErr; cases hmemErr
      | cons x xs => rfl
    have hmem2 : ("  ❌ [" ++ optStr (xmlFind el "Code") ++ "] " ++ m) ∈ caeErrLines root raw := by
      simp [caeErrLines, hne, List.mem_append, hmemErr]
    exact ⟨hmem2, substrOf_of_mem_pyJoin "\n" _ _ hmem2⟩
  · intro el hel htag m hm
    have hmemObs : ("  ⚠️  [" ++ optStr (xmlFind el "Code") ++ "] " ++ m) ∈ caeObsMsgs root :=
      List.mem_filterMap.mpr ⟨el, hel, by simp [htag, hm]⟩
    have hne : (caeObsMsgs root).isEmpty = false := by
      cases hcm : caeObsMsgs root with
      | nil => rw [hcm] at hmemObs; cases hmemObs
      | cons x xs => rfl
    have hmem2 : ("  ⚠️  [" ++ optStr (xmlFind el "Code") ++ "] " ++ m) ∈ caeErrLines root raw := by
      simp [caeErrLines, hne, List.mem_append, hmemObs]
    exact ⟨hmem2, substrOf_of_mem_pyJoin "\n" _ _ hmem2⟩

/-- Witness for C5 at a rejection carrying two error pairs and one
observation pair: the failure aggregates all three. -/
theorem C5_rejection_aggregates_witness :
    wsfe_request_cae 2 8 "20260215" "1000.00" "20-29865449-1" caeRespRej =
      .error (pyJoin "\n" (caeErrLines rejTree "<rawbody/>")) ∧
    "  ❌ [10015] Campo DocNro invalido" ∈ caeErrLines rejTree "<rawbody/>" ∧
    "  ❌ [10016] CbteDesde distinto al proximo" ∈ caeErrLines rejTree "<rawbody/>" ∧
    "  ⚠️  [01] Revisar condicion IVA" ∈ caeErrLines rejTree "<rawbody/>" := by
  have h := C5_rejection_aggregates 2 8 "20260215" "1000.00" "20-29865449-1"
    caeRespRej rejTree "<rawbody/>" rfl (by decide) (by decide)
  have memA : errElA ∈ iterElems rejTree := by
    simp [iterElems, iterElemsList, rejTree, errElA, errElB, obsElC]
  have memB : errElB ∈ iterElems rejTree := by
    simp [iterElems, iterElemsList, rejTree, errElA, errElB, obsElC]
  have memC : obsElC ∈ iterElems rejTree := by
    simp [iterElems, iterElemsList, rejTree, errElA, errElB, obsElC]
  have hA := (h.2.1 errElA memA (by decide) "Campo DocNro invalido" (by decide)).1
  have hB := (h.2.1 errElB memB (by decide) "CbteDesde distinto al proximo" (by decide)).1
  have hC := (h.2.2 obsElC memC (by decide) "Revisar condicion IVA" (by decide)).1
  refine ⟨h.1, ?_, ?_, ?_⟩
  · exact (show ("  ❌ [" ++ optStr (xmlFind errElA "Code") ++ "] " ++ "Campo DocNro invalido")
      = "  ❌ [10015] Campo DocNro invalido" by decide) ▸ hA
  · exact (show ("  ❌ [" ++ optStr (xmlFind errElB "Code") ++ "] " ++ "CbteDesde distinto al proximo")
      = "  ❌ [10016] CbteDesde distinto al proximo" by decide) ▸ hB
  · exact (show ("  ⚠️  [" ++ optStr (xmlFind obsElC "Code") ++ "] " ++ "Revisar condicion IVA")
      = "  ⚠️  [01] Revisar condicion IVA" by decide) ▸ hC

/-- C1: the history operation sorts by the display-string key, not by the
calendar date: on this concrete run it returns the 31/01/2026 record before
the 15/02/2026 record, although the first strictly predates the second, so
the output is not sorted by issue date descending. -/
theorem C1_history_sorts_display_string_not_date :
    get_invoices (.ok tok0) lastResp2 qRespHist (2026, 1, 1) (2026, 12, 31) (some [1]) =
      .ok [buildInvRec 1 1 qTreeJan, buildInvRec 1 2 qTreeFeb] ∧
    (buildInvRec 1 1 qTreeJan).fecha_emision = "31/01/2026" ∧
    (buildInvRec 1 2 qTreeFeb).fecha_emision = "15/02/2026" ∧
    parseInvDate "31/01/2026" = some (2026, 1, 31) ∧
    parseInvDate "15/02/2026" = some (2026, 2, 15) ∧
    dateLe (2026, 1, 31) (2026, 2, 15) = true ∧
    dateLe (2026, 2, 15) (2026, 1, 31) = false := by
  refine ⟨by decide, by decide, by decide, by decide, by decide, by decide, by decide⟩

/-- C2 counterexample: a transport fault while reading the last number of a
sales point during the history operation is swallowed: the facade returns a
successful empty result instead of propagating the failure. -/
theorem C2_counterexample_swallowed_fault :
    wsfe_get_last_invoice_number (lastRespErr 1) =
      .error "ConnectionError: HTTP 503 from wswhomo.afip.gov.ar" ∧
    get_invoices (.ok tok0) lastRespErr qRespHist (2026, 1, 1) (2026, 12, 31) (some [1]) =
      .ok [] := by
  exact ⟨by decide, by decide⟩

/-- C2 (amended): credential-acquisition failures propagate out of every
facade operation (the history operation and issuance alike), and fatal
errors during issuance — the date conversion, the last-number lookup and the
CAE request — propagate out of issue_invoice; but with a credential in hand
the history operation always returns a successful list, each failing sales
point being skipped, in addition to the skipped per-number gap case. -/
theorem C2_error_propagation_amended
    (lastResp : Nat → Except String Xml) (qResp : Nat → Nat → Except String Xml)
    (caeResp : CaeRequest → Except String (Xml × String))
    (dF dT : DateT) (sp : Option (List Nat)) (row : Row) (today : String)
    (e : String) (t : TokenData) :
    (get_invoices (.error e) lastResp qResp dF dT sp = .error e) ∧
    (∃ l, get_invoices (.ok t) lastResp qResp dF dT sp = .ok l) ∧
    (∀ d, invoice_date_of row.fecha_emision today = .ok d →
      issue_invoice (.error e) lastResp caeResp row today = .error e) ∧
    (∀ msg, invoice_date_of row.fecha_emision today = .error msg →
      ∀ tok : Except String TokenData,
        issue_invoice tok lastResp caeResp row today = .error msg) ∧
    (∀ d, invoice_date_of row.fecha_emision today = .ok d →
      wsfe_get_last_invoice_number (lastResp (extract_pv row.comp_nro)) = .error e →
      issue_invoice (.ok t) lastResp caeResp row today = .error e) ∧
    (∀ d (n : Nat), invoice_date_of row.fecha_emision today = .ok d →
      wsfe_get_last_invoice_number (lastResp (extract_pv row.comp_nro)) = .ok (Int.ofNat n) →
      caeResp (buildCaeRequest (extract_pv row.comp_nro) (n + 1) d row.amount_str
        row.cuit_cliente) = .error e →
      issue_invoice (.ok t) lastResp caeResp row today = .error e) := by
  refine ⟨rfl, ⟨_, rfl⟩, ?_, ?_, ?_, ?_⟩
  · intro d hd
    simp [issue_invoice, hd]
  · intro msg hd tok
    simp [issue_invoice, hd]
  · intro d hd hl
    simp [issue_invoice, hd, hl]
  · intro d n hd hl hc
    simp [issue_invoice, hd, hl, wsfe_request_cae, handleCaeResponse, hc]

/-- Witness for the amended C2: a token failure propagates from the history
operation and from issuance, a date-conversion failure propagates from
issuance, and so does a last-number transport fault. -/
theorem C2_error_propagation_amended_witness :
    get_invoices (.error "ConnectionError: HTTP 503 from wswhomo.afip.gov.ar")
        lastRespErr qRespHist (2026, 1, 1) (2026, 12, 31) (some [1]) =
      .error "ConnectionError: HTTP 503 from wswhomo.afip.gov.ar" ∧
    issue_invoice (.error "ConnectionError: HTTP 503 from wswhomo.afip.gov.ar")
        lastResp7 caeRespErr row0 "20261012" =
      .error "ConnectionError: HTTP 503 from wswhomo.afip.gov.ar" ∧
    issue_invoice (.ok tok0) lastResp7 caeRespErr rowBadDate "20261012" =
      .error "ValueError: not enough values to unpack" ∧
    issue_invoice (.ok tok0) lastRespErr caeRespErr row0 "20261012" =
      .error "ConnectionError: HTTP 503 from wswhomo.afip.gov.ar" := by
  have h := C2_error_propagation_amended lastRespErr qRespHist caeRespErr
    (2026, 1, 1) (2026, 12, 31) (some [1]) row0 "20261012"
    "ConnectionError: HTTP 503 from wswhomo.afip.gov.ar" tok0
  have h2 := C2_error_propagation_amended lastResp7 qRespHist caeRespErr
    (2026, 1, 1) (2026, 12, 31) (some [1]) row0 "20261012"
    "ConnectionError: HTTP 503 from wswhomo.afip.gov.ar" tok0
  have h3 := C2_error_propagation_amended lastResp7 qRespHist caeRespErr
    (2026, 1, 1) (2026, 12, 31) (some [1]) rowBadDate "20261012"
    "ConnectionError: HTTP 503 from wswhomo.afip.gov.ar" tok0
  refine ⟨h.1, ?_, ?_, ?_⟩
  · exact h2.2.2.1 "20260215" (by decide)
  · exact h3.2.2.2.1 "ValueError: not enough values to unpack" (by decide) (.ok tok0)
  · exact h.2.2.2.2.1 "20260215" (by decide) (by decide)

/-- C10 counterexample: the identifier c3-00000001 does not match the
literal pattern of the claim (an uppercase C), yet issue_invoice derives sales
point 3 from it, not the fallback 2 the claim predicts. -/
theorem C10_counterexample_lowercase_c :
    specPatternC "c3-00000001" = false ∧
    matchesPvPattern "c3-00000001" = true ∧
    extract_pv "c3-00000001" = 3 ∧
    extract_pv "c3-00000001" ≠ 2 := by
  refine ⟨by decide, by decide, by decide, by decide⟩

/-- C10 (amended): for identifiers that do not match the case-insensitive
pattern (letter C of either case, digits, dash) the sales point silently
falls back to 2, and a display date with no slash is silently replaced by
today; through issue_invoice such a row is submitted at sales point 2 with
today as the invoice date. -/
theorem C10_silent_fallbacks (s fecha today a cu : String) :
    (matchesPvPattern s = false → extract_pv s = 2) ∧
    (fecha.data.any (· = '/') = false → invoice_date_of fecha today = .ok today) ∧
    (∀ (lastResp : Nat → Except String Xml)
        (caeResp : CaeRequest → Except String (Xml × String)) (t : TokenData) (n : Nat),
      matchesPvPattern s = false → fecha.data.any (· = '/') = false →
      wsfe_get_last_invoice_number (lastResp 2) = .ok (Int.ofNat n) →
      issue_invoice (.ok t) lastResp caeResp
          { comp_nro := s, fecha_emision := fecha, amount_str := a, cuit_cliente := cu }
          today =
        handleCaeResponse (n + 1)
          (caeResp (buildCaeRequest 2 (n + 1) today a cu))) := by
  have hpv : matchesPvPattern s = false → extract_pv s = 2 := by
    intro h
    cases hs : s.data with
    | nil => simp [extract_pv, hs]
    | cons c rest =>
      simp only [matchesPvPattern, hs] at h
      cases hc : (c == 'C' || c == 'c') with
      | false => simp [extract_pv, hs, hc]
      | true =>
        rw [hc] at h
        simp only [Bool.true_and] at h
        simp [extract_pv, hs, hc, h]
  have hdt : fecha.data.any (· = '/') = false → invoice_date_of fecha today = .ok today := by
    intro h
    unfold invoice_date_of
    simp [h]
  refine ⟨hpv, hdt, ?_⟩
  intro lastResp caeResp t n h1 h2 hlast
  have hd := hdt h2
  have hp := hpv h1
  simp [issue_invoice, hp, hd, hlast, wsfe_request_cae]

/-- Witness for the amended C10: a non-matching identifier falls back to
sales point 2 and a slash-free date is replaced by today. -/
theorem C10_silent_fallbacks_witness :
    extract_pv "X123" = 2 ∧
    invoice_date_of "20260215" "20261012" = .ok "20261012" :=
  ⟨(C10_silent_fallbacks "X123" "20260215" "20261012" "1.00" "20").1 (by decide),
   (C10_silent_fallbacks "X123" "20260215" "20261012" "1.00" "20").2.1 (by decide)⟩

end ARCA
